import Mathlib

/-!
Verification of the CloudZero account-discovery Lambda
(`src/services/discovery/src/app.py`).

The program manipulates Python dictionaries, lists and strings, so we embed
its values in a JSON-like type `JVal`. A Python `dict` is an association
list with unique keys (insertion order preserved, assignment overwrites in
place). Raisable Python code is embedded in `Except PyErr`.
-/

inductive JVal where
  | null
  | bool (b : Bool)
  | str (s : String)
  | num (n : Int)
  | arr (xs : List JVal)
  | obj (kvs : List (String × JVal))

mutual

def JVal.decEq : (a b : JVal) → Decidable (a = b)
  | .null, .null => isTrue rfl
  | .null, .bool _ | .null, .str _ | .null, .num _ | .null, .arr _ | .null, .obj _
  | .bool _, .null | .bool _, .str _ | .bool _, .num _ | .bool _, .arr _ | .bool _, .obj _
  | .str _, .null | .str _, .bool _ | .str _, .num _ | .str _, .arr _ | .str _, .obj _
  | .num _, .null | .num _, .bool _ | .num _, .str _ | .num _, .arr _ | .num _, .obj _
  | .arr _, .null | .arr _, .bool _ | .arr _, .str _ | .arr _, .num _ | .arr _, .obj _
  | .obj _, .null | .obj _, .bool _ | .obj _, .str _ | .obj _, .num _ | .obj _, .arr _ =>
      isFalse (fun h => JVal.noConfusion h)
  | .bool a, .bool b =>
      if h : a = b then isTrue (congrArg JVal.bool h)
      else isFalse (fun hh => h (JVal.bool.inj hh))
  | .str a, .str b =>
      if h : a = b then isTrue (congrArg JVal.str h)
      else isFalse (fun hh => h (JVal.str.inj hh))
  | .num a, .num b =>
      if h : a = b then isTrue (congrArg JVal.num h)
      else isFalse (fun hh => h (JVal.num.inj hh))
  | .arr a, .arr b =>
      match JVal.decEqList a b with
      | isTrue h => isTrue (congrArg JVal.arr h)
      | isFalse h => isFalse (fun hh => h (JVal.arr.inj hh))
  | .obj a, .obj b =>
      match JVal.decEqKV a b with
      | isTrue h => isTrue (congrArg JVal.obj h)
      | isFalse h => isFalse (fun hh => h (JVal.obj.inj hh))

def JVal.decEqList : (as bs : List JVal) → Decidable (as = bs)
  | [], [] => isTrue rfl
  | [], _ :: _ => isFalse (fun h => List.noConfusion h)
  | _ :: _, [] => isFalse (fun h => List.noConfusion h)
  | a :: as, b :: bs =>
      match JVal.decEq a b with
      | isFalse h => isFalse (fun hh => h (List.cons.inj hh).1)
      | isTrue h1 =>
          match JVal.decEqList as bs with
          | isTrue h2 => isTrue (by rw [h1, h2])
          | isFalse h2 => isFalse (fun hh => h2 (List.cons.inj hh).2)

def JVal.decEqKV :
    (as bs : List (String × JVal)) → Decidable (as = bs)
  | [], [] => isTrue rfl
  | [], _ :: _ => isFalse (fun h => List.noConfusion h)
  | _ :: _, [] => isFalse (fun h => List.noConfusion h)
  | (k, v) :: as, (k', v') :: bs =>
      if hk : k = k' then
        match JVal.decEq v v' with
        | isFalse h => isFalse (fun hh => h (congrArg Prod.snd (List.cons.inj hh).1))
        | isTrue h1 =>
            match JVal.decEqKV as bs with
            | isTrue h2 => isTrue (by rw [hk, h1, h2])
            | isFalse h2 => isFalse (fun hh => h2 (List.cons.inj hh).2)
      else isFalse (fun hh => hk (congrArg Prod.fst (List.cons.inj hh).1))

end

instance : DecidableEq JVal := JVal.decEq

/-- Python exception classes that the embedded code can raise. -/
inductive PyErr where
  | indexError
  | keyError
  | typeError
  | validationError
deriving DecidableEq

instance {ε α : Type} [DecidableEq ε] [DecidableEq α] : DecidableEq (Except ε α) :=
  fun a b =>
    match a, b with
    | .ok x, .ok y => decidable_of_iff (x = y) (by simp)
    | .error e, .error f => decidable_of_iff (e = f) (by simp)
    | .ok _, .error _ => isFalse (by simp)
    | .error _, .ok _ => isFalse (by simp)

/-- Dictionary lookup (`d[k]` when the key is present, else `none`). -/
def lookup : List (String × JVal) → String → Option JVal
  | [], _ => none
  | (k', v) :: rest, k => if k' = k then some v else lookup rest k

/-- Python dict assignment `d[k] = v`: overwrite in place, else append. -/
def setKey : List (String × JVal) → String → JVal → List (String × JVal)
  | [], k, v => [(k, v)]
  | (k', v') :: rest, k, v =>
      if k' = k then (k', v) :: rest else (k', v') :: setKey rest k v

/-- `toolz.merge d1 d2`: start from `d1`, assign every pair of `d2` in order. -/
def merge (d1 d2 : List (String × JVal)) : List (String × JVal) :=
  d2.foldl (fun acc kv => setKey acc kv.1 kv.2) d1

/-- Python truthiness: `None`, `False`, `0`, `''`, `[]`, `{}` are falsy. -/
def pyFalsy : JVal → Bool
  | .null => true
  | .bool b => !b
  | .str s => s == ""
  | .num n => n == 0
  | .arr xs => xs.isEmpty
  | .obj kvs => kvs.isEmpty

/-- Python `any(xs)`: some element is truthy. -/
def pyAny (xs : List JVal) : Bool :=
  xs.any (fun x => !pyFalsy x)

/-- Python iteration `for x in v`: lists yield elements, dicts their keys,
strings their characters; other values raise `TypeError`. -/
def pyIter : JVal → Except PyErr (List JVal)
  | .arr xs => .ok xs
  | .obj kvs => .ok (kvs.map (fun kv => .str kv.1))
  | .str s => .ok (s.toList.map (fun c => .str (String.mk [c])))
  | _ => .error .typeError

/-- Python subscription `x[k]` with a string key: `KeyError` if missing,
`TypeError` if `x` is not a dict. -/
def getItem : JVal → String → Except PyErr JVal
  | .obj kvs, k =>
      match lookup kvs k with
      | some v => .ok v
      | none => .error .keyError
  | _, _ => .error .typeError

/-- Python `str.split(sep)` for a one-character separator, on the character
list: keeps empty segments, `''.split(sep) == ['']`. -/
def pySplit (sep : Char) : List Char → List (List Char)
  | [] => [[]]
  | c :: cs =>
    let r := pySplit sep cs
    if c = sep then [] :: r
    else
      match r with
      | g :: gs => (c :: g) :: gs
      | [] => [[c]]

/-- Python `s.split(sep)` on strings. -/
def pySplitStr (s : String) (sep : Char) : List String :=
  (pySplit sep s.toList).map (fun cs => String.mk cs)

/-- A key of a `toolz.get_in` path: a dict key or a sequence index. -/
inductive PathKey where
  | s (k : String)
  | i (n : Nat)
deriving DecidableEq

/-- `toolz.get_in(keys, coll, default)`: follow the path, returning `default`
as soon as a lookup raises (missing key, out-of-range index, wrong type). -/
def getIn : List PathKey → JVal → JVal → JVal
  | [], v, _ => v
  | .s k :: ks, .obj kvs, d =>
      match lookup kvs k with
      | some v => getIn ks v d
      | none => d
  | .i n :: ks, .arr xs, d =>
      match xs.get? n with
      | some v => getIn ks v d
      | none => d
  | .i n :: ks, .str s, d =>
      match s.toList.get? n with
      | some c => getIn ks (.str (String.mk [c])) d
      | none => d
  | _ :: _, _, d => d

/-!
## Embedding of `app.py`
-/

/-- `DEFAULT_OUTPUT` (app.py lines 21-29). -/
def DEFAULT_OUTPUT : JVal :=
  .obj [("IsAuditAccount", .bool false),
        ("AuditCloudTrailBucketName", .null),
        ("IsConnectedAccount", .bool false),
        ("IsCloudTrailAccount", .bool false),
        ("CloudTrailSNSTopicArn", .null),
        ("IsMasterPayerAccount", .bool false),
        ("MasterPayerBillingBucketName", .null)]

/-- Value matcher `str` of a voluptuous schema. -/
def isStrVal : Option JVal → Bool
  | some (.str _) => true
  | _ => false

/-- Value matcher `bool` of a voluptuous schema. -/
def isBoolVal : Option JVal → Bool
  | some (.bool _) => true
  | _ => false

/-- Value matcher `Any(None, str)` of a voluptuous schema. -/
def isStrOrNullVal : Option JVal → Bool
  | some (.str _) => true
  | some .null => true
  | _ => false

/-- `INPUT_SCHEMA` (app.py lines 37-46): `required=True, extra=REMOVE_EXTRA`.
The validated result keeps only the schema's keys (so the `kwargs` entry of
the initial world is dropped); any missing or ill-typed required entry
raises. -/
def INPUT_SCHEMA (world : JVal) : Except PyErr JVal :=
  match world with
  | .obj kvs =>
    match lookup kvs "event" with
    | some (.obj ekvs) =>
      match lookup ekvs "RequestType", lookup ekvs "ResourceProperties",
            lookup ekvs "ResponseURL", lookup ekvs "StackId" with
      | some rt, some (.obj rpkvs), some (.str ru), some (.str si) =>
        if rt = .str "Create" ∨ rt = .str "Update" ∨ rt = .str "Delete" then
          match lookup rpkvs "AccountId" with
          | some (.str aid) =>
              .ok (.obj [("event",
                .obj [("RequestType", rt),
                      ("ResourceProperties", .obj [("AccountId", .str aid)]),
                      ("ResponseURL", .str ru),
                      ("StackId", .str si)])])
          | _ => .error .validationError
        else .error .validationError
      | _, _, _, _ => .error .validationError
    | _ => .error .validationError
  | _ => .error .validationError

/-- `OUTPUT_SCHEMA` (app.py lines 48-58): `required=True, extra=ALLOW_EXTRA`,
so on success the world passes through unchanged. -/
def OUTPUT_SCHEMA (world : JVal) : Except PyErr JVal :=
  match world with
  | .obj kvs =>
    match lookup kvs "output" with
    | some (.obj okvs) =>
      if isBoolVal (lookup okvs "IsAuditAccount") &&
         isStrOrNullVal (lookup okvs "AuditCloudTrailBucketName") &&
         isBoolVal (lookup okvs "IsConnectedAccount") &&
         isBoolVal (lookup okvs "IsCloudTrailAccount") &&
         isStrOrNullVal (lookup okvs "CloudTrailSNSTopicArn") &&
         isBoolVal (lookup okvs "IsMasterPayerAccount") &&
         isStrOrNullVal (lookup okvs "MasterPayerBillingBucketName")
      then .ok world
      else .error .validationError
    | _ => .error .validationError
  | _ => .error .validationError

/-- `event_account_id = get_in(['event', 'ResourceProperties', 'AccountId'])`
(app.py line 60), default `None`. -/
def event_account_id (world : JVal) : JVal :=
  getIn [.s "event", .s "ResourceProperties", .s "AccountId"] world .null

/-!
### Coeffects

The boto3 clients are the outside world; an `Env` records what each API call
would return (or that it raises).
-/

structure Env where
  describe_trails : Except PyErr JVal
  list_buckets : Except PyErr JVal
  describe_report_definitions : Except PyErr JVal

/-- `toolz.keyfilter pred d` (raises `TypeError` on non-dicts). -/
def keyfilter (pred : String → Bool) (d : JVal) : Except PyErr JVal :=
  match d with
  | .obj kvs => .ok (.obj (kvs.filter (fun kv => pred kv.1)))
  | _ => .error .typeError

/-- `assoc_in(world, ['coeffects', name], data)` as used by `coeffect`:
creates the `coeffects` dict if missing, raises `TypeError` if the world or
an existing `coeffects` entry is not a dict. -/
def assoc_in_coeffects (world : JVal) (name : String) (data : JVal) :
    Except PyErr JVal :=
  match world with
  | .obj kvs =>
    match (lookup kvs "coeffects").getD (.obj []) with
    | .obj ikvs => .ok (.obj (setKey kvs "coeffects" (.obj (setKey ikvs name data))))
    | _ => .error .typeError
  | _ => .error .typeError

/-- The `coeffect(name)` decorator (app.py lines 75-85): run the fetcher,
catch any exception and fall back to `{}`, store the result under
`['coeffects', name]`. -/
def coeffect (name : String) (f : JVal → Except PyErr JVal) (world : JVal) :
    Except PyErr JVal :=
  let data : JVal :=
    match f world with
    | .ok d => d
    | .error _ => .obj []
  assoc_in_coeffects world name data

/-- `coeffects_cloudtrail` (app.py lines 88-91). -/
def coeffects_cloudtrail (env : Env) : JVal → Except PyErr JVal :=
  coeffect "cloudtrail" (fun _world => do
    let response ← env.describe_trails
    keyfilter (fun k => k == "trailList") response)

/-- `coeffects_s3` (app.py lines 94-97). -/
def coeffects_s3 (env : Env) : JVal → Except PyErr JVal :=
  coeffect "s3" (fun _world => do
    let response ← env.list_buckets
    keyfilter (fun k => k == "Buckets") response)

/-- `coeffects_cur` (app.py lines 100-103). -/
def coeffects_cur (env : Env) : JVal → Except PyErr JVal :=
  coeffect "cur" (fun _world => do
    let response ← env.describe_report_definitions
    keyfilter (fun k => k == "ReportDefinitions") response)

/-- `coeffects` (app.py lines 68-72). -/
def coeffects (env : Env) (world : JVal) : Except PyErr JVal := do
  let w1 ← coeffects_cloudtrail env world
  let w2 ← coeffects_s3 env w1
  coeffects_cur env w2

/-!
### Business logic
-/

/-- `{x['Name'] for x in get_in(['coeffects', 's3', 'Buckets'], world, [])}`,
the set comprehension shared by `discover_audit_account` (line 113) and
`discover_master_payer_account` (line 192); membership below is by value, so
the list stands in for the Python set. -/
def local_buckets_of (world : JVal) : Except PyErr (List JVal) := do
  let xs ← pyIter (getIn [.s "coeffects", .s "s3", .s "Buckets"] world (.arr []))
  xs.mapM (fun x => getItem x "Name")

/-- The prior-output half of
`update_in(world, ['output'], lambda x: merge(x or {}, output))`:
`x or {}` replaces a falsy prior value by `{}`; a truthy non-dict prior
value makes `merge` raise `TypeError`. -/
def output_base : Option JVal → Except PyErr (List (String × JVal))
  | o =>
    match (if pyFalsy (o.getD .null) then JVal.obj [] else o.getD .null) with
    | .obj pkvs => .ok pkvs
    | _ => .error .typeError

/-- `update_in(world, ['output'], lambda x: merge(x or {}, output))`, the
common last line of every classification rule. -/
def update_output (world : JVal) (output : List (String × JVal)) :
    Except PyErr JVal :=
  match world with
  | .obj kvs =>
      (output_base (lookup kvs "output")).map
        (fun pkvs => .obj (setKey kvs "output" (.obj (merge pkvs output))))
  | _ => .error .typeError

/-- The `output` dict built by `discover_audit_account` (app.py lines 111-117). -/
def audit_output (world : JVal) : Except PyErr (List (String × JVal)) := do
  let trail_bucket := getIn
    [.s "coeffects", .s "cloudtrail", .s "trailList", .i 0, .s "S3BucketName"]
    world .null
  let local_buckets ← local_buckets_of world
  .ok [("IsAuditAccount", .bool (decide (trail_bucket ∈ local_buckets))),
       ("AuditCloudTrailBucketName", trail_bucket)]

/-- `discover_audit_account` (app.py lines 111-118). -/
def discover_audit_account (world : JVal) : Except PyErr JVal :=
  (audit_output world).bind (fun output => update_output world output)

/-- `discover_connected_account` (app.py lines 121-125). -/
def discover_connected_account (world : JVal) : Except PyErr JVal :=
  update_output world [("IsConnectedAccount", .bool true)]

/-- `MINIMUM_CLOUDTRAIL_CONFIGURATION` (app.py lines 143-149) as the
predicate deciding whether `safe_check` succeeds: a dict whose required
entries are present with the required types/values; extra keys allowed. -/
def validTrailMinimum (x : JVal) : Bool :=
  match x with
  | .obj kvs =>
      isStrVal (lookup kvs "S3BucketName") &&
      isStrVal (lookup kvs "SnsTopicName") &&
      isStrVal (lookup kvs "SnsTopicARN") &&
      decide (lookup kvs "IsMultiRegionTrail" = some (.bool true)) &&
      isStrVal (lookup kvs "TrailARN")
  | _ => false

/-- `IDEAL_CLOUDTRAIL_CONFIGURATION` (app.py lines 152-154): the minimum
schema extended with `IsOrganizationTrail: True`. -/
def validTrailIdeal (x : JVal) : Bool :=
  validTrailMinimum x &&
    (match x with
     | .obj kvs => decide (lookup kvs "IsOrganizationTrail" = some (.bool true))
     | _ => false)

/-- `safe_check(schema, data)` (app.py lines 128-133): the validated data on
success (our matchers pass values through unchanged), `None` on failure. -/
def safe_check (valid : JVal → Bool) (x : JVal) : Option JVal :=
  if valid x then some x else none

/-- `keep_valid(schema, xs)` (app.py lines 136-140). -/
def keep_valid (valid : JVal → Bool) (xs : List JVal) : List JVal :=
  xs.filterMap (safe_check valid)

/-- `keep_valid(IDEAL, trails) or keep_valid(MINIMUM, trails)`
(app.py line 163): Python `or` on lists picks the first non-empty one. -/
def select_valid_trails (trails : List JVal) : List JVal :=
  let ideal := keep_valid validTrailIdeal trails
  if ideal.isEmpty then keep_valid validTrailMinimum trails else ideal

/-- `get_first_valid_trail` (app.py lines 157-158). -/
def get_first_valid_trail (trails : List JVal) : Except PyErr JVal :=
  match trails with
  | [] => .ok .null
  | t :: _ => getItem t "SnsTopicARN"

/-- `trail_topic.split(':')[4] if trail_topic else None` (app.py line 165):
a falsy topic (None or `''`) yields `None`; otherwise the topic must be a
string and index 4 of the split can raise `IndexError`. -/
def extract_topic_account_id (trail_topic : JVal) : Except PyErr JVal :=
  if pyFalsy trail_topic then .ok .null
  else
    match trail_topic with
    | .str s =>
      match (pySplitStr s ':').get? 4 with
      | some seg => .ok (.str seg)
      | none => .error .indexError
    | _ => .error .typeError

/-- The `output` dict built by `discover_cloudtrail_account`
(app.py lines 161-169). -/
def cloudtrail_output (world : JVal) : Except PyErr (List (String × JVal)) := do
  let trails ← pyIter (getIn [.s "coeffects", .s "cloudtrail", .s "trailList"] world (.arr []))
  let valid_trails := select_valid_trails trails
  let trail_topic ← get_first_valid_trail valid_trails
  let account_id ← extract_topic_account_id trail_topic
  .ok [("IsCloudTrailAccount", .bool (decide (account_id = event_account_id world))),
       ("CloudTrailSNSTopicArn", trail_topic)]

/-- `discover_cloudtrail_account` (app.py lines 161-170). -/
def discover_cloudtrail_account (world : JVal) : Except PyErr JVal :=
  (cloudtrail_output world).bind (fun output => update_output world output)

/-- `MINIMUM_BILLING_REPORT` (app.py lines 173-183) as the predicate
deciding whether `safe_check` succeeds. -/
def validReport (x : JVal) : Bool :=
  match x with
  | .obj kvs =>
      decide (lookup kvs "TimeUnit" = some (.str "HOURLY")) &&
      decide (lookup kvs "Format" = some (.str "textORcsv")) &&
      decide (lookup kvs "Compression" = some (.str "GZIP")) &&
      decide (lookup kvs "AdditionalSchemaElements" = some (.arr [.str "RESOURCES"])) &&
      isStrVal (lookup kvs "S3Bucket") &&
      isStrVal (lookup kvs "S3Prefix") &&
      isStrVal (lookup kvs "S3Region") &&
      decide (lookup kvs "ReportVersioning" = some (.str "CREATE_NEW_REPORT")) &&
      decide (lookup kvs "RefreshClosedReports" = some (.bool true))
  | _ => false

/-- `get_first_valid_report_definition_s3_bucket` (app.py lines 186-187);
note the guard is `any(...)`, i.e. "some element is truthy", not
non-emptiness of the list. -/
def get_first_valid_report_definition_s3_bucket
    (valid_report_definitions : List JVal) (default : JVal) :
    Except PyErr JVal :=
  if pyAny valid_report_definitions then
    match valid_report_definitions with
    | x :: _ => getItem x "S3Bucket"
    | [] => .error .indexError
  else .ok default

/-- `[x for x in valid_report_definitions if x['S3Bucket'] in local_buckets]`
(app.py line 195): the subscript can raise. -/
def filter_local_reports (local_buckets : List JVal) :
    List JVal → Except PyErr (List JVal)
  | [] => .ok []
  | x :: xs => do
      let b ← getItem x "S3Bucket"
      let rest ← filter_local_reports local_buckets xs
      .ok (if b ∈ local_buckets then x :: rest else rest)

/-- The `output` dict built by `discover_master_payer_account`
(app.py lines 190-200). -/
def master_payer_output (world : JVal) : Except PyErr (List (String × JVal)) := do
  let report_definitions ← pyIter
    (getIn [.s "coeffects", .s "cur", .s "ReportDefinitions"] world (.arr []))
  let local_buckets ← local_buckets_of world
  let valid_report_definitions := keep_valid validReport report_definitions
  let default_s3_bucket ←
    get_first_valid_report_definition_s3_bucket valid_report_definitions .null
  let valid_local_report_definitions ←
    filter_local_reports local_buckets valid_report_definitions
  let loc := pyAny valid_local_report_definitions
  let name ←
    get_first_valid_report_definition_s3_bucket valid_local_report_definitions
      default_s3_bucket
  .ok [("IsMasterPayerAccount", .bool loc),
       ("MasterPayerBillingBucketName", name)]

/-- `discover_master_payer_account` (app.py lines 190-201). -/
def discover_master_payer_account (world : JVal) : Except PyErr JVal :=
  (master_payer_output world).bind (fun output => update_output world output)

/-- `discover_account_types` (app.py lines 204-209). -/
def discover_account_types (world : JVal) : Except PyErr JVal := do
  let w1 ← discover_audit_account world
  let w2 ← discover_connected_account w1
  let w3 ← discover_cloudtrail_account w2
  discover_master_payer_account w3

/-!
### Handler
-/

/-- `cfnresponse` status constants. -/
inductive Status where
  | SUCCESS
  | FAILED
deriving DecidableEq

/-- What `cfnresponse.send` receives from the handler. -/
structure Response where
  status : Status
  output : JVal
  physicalResourceId : JVal
deriving DecidableEq

/-- The `pipe(...)` of `handler` (app.py lines 222-226). -/
def handler_pipe (env : Env) (event kwargs : JVal) : Except PyErr JVal := do
  let w1 ← INPUT_SCHEMA (.obj [("event", event), ("kwargs", kwargs)])
  let w2 ← coeffects env w1
  let w3 ← discover_account_types w2
  OUTPUT_SCHEMA w3

/-- `handler` (app.py lines 217-233). `status` is initialised to `SUCCESS`
and never reassigned; an exception from the pipe leaves `world = {}` so the
default output is sent. The `finally` block itself evaluates
`event.get('PhysicalResourceId')`, which raises (and loses the response)
when the raw event is not a dict. -/
def handler (env : Env) (event kwargs : JVal) : Except PyErr Response := do
  let status := Status.SUCCESS
  let world : JVal :=
    match handler_pipe env event kwargs with
    | .ok w => w
    | .error _ => .obj []
  let output : JVal :=
    match world with
    | .obj kvs => (lookup kvs "output").getD DEFAULT_OUTPUT
    | _ => DEFAULT_OUTPUT
  let pri ←
    match event with
    | .obj ekvs => .ok ((lookup ekvs "PhysicalResourceId").getD .null)
    | _ => (.error .typeError : Except PyErr JVal)
  .ok { status := status, output := output, physicalResourceId := pri }

/-!
## Observations on worlds

Auxiliary accessors used to state properties of result worlds, and the
last-binding lookup used to describe `merge`.
-/

/-- The value of a top-level section of a world dict. -/
def sectionOf (w : JVal) (k : String) : Option JVal :=
  match w with
  | .obj kvs => lookup kvs k
  | _ => none

/-- The value of a field of a world's `output` section. -/
def output_key (w : JVal) (k : String) : Option JVal :=
  match sectionOf w "output" with
  | some (.obj okvs) => lookup okvs k
  | _ => none

/-- Reading a key of a prior `output` section: only a dict-valued section
yields bindings. -/
def prior_output_lookup (o : Option JVal) (k : String) : Option JVal :=
  match o with
  | some (.obj okvs) => lookup okvs k
  | _ => none

/-- The binding a key receives when a pair list is assigned into a dict in
order: the last pair with that key wins. -/
def lookupLast : List (String × JVal) → String → Option JVal
  | [], _ => none
  | (k', v) :: rest, k =>
    match lookupLast rest k with
    | some r => some r
    | none => if k' = k then some v else none

/-- What a wrapped coeffect fetcher stores for its category: the key-filtered
response of its own client call, or `{}` when that call (or the filtering)
raises. -/
def fetch_data (r : Except PyErr JVal) (key : String) : JVal :=
  match r.bind (keyfilter (fun k => k == key)) with
  | .ok d => d
  | .error _ => .obj []

/-- The output fields written by `discover_audit_account`. -/
def audit_keys : List String := ["IsAuditAccount", "AuditCloudTrailBucketName"]

/-- The output fields written by `discover_connected_account`. -/
def connected_keys : List String := ["IsConnectedAccount"]

/-- The output fields written by `discover_cloudtrail_account`. -/
def cloudtrail_keys : List String := ["IsCloudTrailAccount", "CloudTrailSNSTopicArn"]

/-- The output fields written by `discover_master_payer_account`. -/
def master_payer_keys : List String := ["IsMasterPayerAccount", "MasterPayerBillingBucketName"]

/-- Two classification runs agree: they raise the same error, or both
succeed on worlds with the same `event`, `coeffects` and `output`
sections. -/
def Related : Except PyErr JVal → Except PyErr JVal → Prop
  | .error e, .error e' => e = e'
  | .ok (.obj nkvs), .ok (.obj nkvs') =>
      lookup nkvs "event" = lookup nkvs' "event" ∧
      lookup nkvs "coeffects" = lookup nkvs' "coeffects" ∧
      lookup nkvs "output" = lookup nkvs' "output"
  | _, _ => False

/-- The result world of a successful pipeline step (used to name concrete
result worlds in instantiations). -/
def resultOf (r : Except PyErr JVal) : JVal :=
  match r with
  | .ok v => v
  | .error _ => .null

/-- A classification rule only rewrites the `output` section, adds bindings
for exactly its own keys there and leaves every other output field as it
was. -/
def RuleFrame (R : JVal → Except PyErr JVal) (K : List String) : Prop :=
  ∀ kvs v, R (.obj kvs) = .ok v →
    (∀ k, ¬ ("output" = k) → sectionOf v k = lookup kvs k) ∧
    (∀ k, k ∉ K → output_key v k = output_key (.obj kvs) k) ∧
    (∀ k, k ∈ K → (output_key v k).isSome = true)

/-- The values a classification rule writes do not depend on the prior
`output` section at all (so in particular not on any key another rule
wrote): two successful runs on worlds agreeing on `event` and `coeffects`
but with arbitrary `output` sections write the same values. -/
def RuleIgnoresOutput (R : JVal → Except PyErr JVal) (K : List String) : Prop :=
  ∀ kvs kvs' v v',
    lookup kvs "event" = lookup kvs' "event" →
    lookup kvs "coeffects" = lookup kvs' "coeffects" →
    R (.obj kvs) = .ok v → R (.obj kvs') = .ok v' →
    ∀ k, k ∈ K → output_key v k = output_key v' k

/-!
## Concrete fixtures
-/

/-- A trail satisfying the ideal schema, owned by account 123456789012. -/
def idealTrail : JVal :=
  .obj [("S3BucketName", .str "trail-bucket"),
        ("SnsTopicARN", .str "arn:aws:sns:us-east-1:123456789012:topic"),
        ("IsMultiRegionTrail", .bool true),
        ("IsOrganizationTrail", .bool true),
        ("SnsTopicName", .str "topic"),
        ("TrailARN", .str "arn:aws:cloudtrail:us-east-1:123456789012:trail/t")]

/-- A trail satisfying only the minimum schema (`IsOrganizationTrail`
missing), with a different topic ARN. -/
def minOnlyTrail : JVal :=
  .obj [("S3BucketName", .str "other-bucket"),
        ("SnsTopicARN", .str "arn:aws:sns:us-east-1:999999999999:min"),
        ("IsMultiRegionTrail", .bool true),
        ("SnsTopicName", .str "min"),
        ("TrailARN", .str "arn:aws:cloudtrail:us-east-1:999999999999:trail/m")]

/-- A minimum-valid trail whose topic ARN has fewer than five
colon-delimited segments. -/
def shortArnTrail : JVal :=
  .obj [("S3BucketName", .str "b"),
        ("SnsTopicARN", .str "arn:short"),
        ("IsMultiRegionTrail", .bool true),
        ("SnsTopicName", .str "t"),
        ("TrailARN", .str "arn:x")]

/-- A well-formed custom-resource event for account 123456789012. -/
def goodEvent : JVal :=
  .obj [("RequestType", .str "Create"),
        ("ResourceProperties", .obj [("AccountId", .str "123456789012")]),
        ("ResponseURL", .str "https://response.example"),
        ("StackId", .str "stack-1")]

/-- A malformed event: `ResourceProperties` lacks `AccountId`, so input
validation raises. -/
def badEvent : JVal :=
  .obj [("RequestType", .str "Create"),
        ("ResourceProperties", .obj []),
        ("ResponseURL", .str "https://response.example"),
        ("StackId", .str "stack-1")]

/-- An environment where every client call succeeds. -/
def env0 : Env :=
  { describe_trails := .ok (.obj [("trailList", .arr [idealTrail]), ("Junk", .num 3)]),
    list_buckets := .ok (.obj [("Buckets", .arr [.obj [("Name", .str "trail-bucket")]])]),
    describe_report_definitions := .ok (.obj [("ReportDefinitions", .arr [])]) }

/-- An environment whose CloudTrail client call raises. -/
def envFail : Env :=
  { describe_trails := .error .typeError,
    list_buckets := .ok (.obj [("Buckets", .arr [.obj [("Name", .str "trail-bucket")]])]),
    describe_report_definitions := .ok (.obj [("ReportDefinitions", .arr [])]) }

/-- A valid billing report definition whose bucket is not local. -/
def remoteReport : JVal :=
  .obj [("TimeUnit", .str "HOURLY"),
        ("Format", .str "textORcsv"),
        ("Compression", .str "GZIP"),
        ("AdditionalSchemaElements", .arr [.str "RESOURCES"]),
        ("S3Bucket", .str "remote-bucket"),
        ("S3Prefix", .str "reports"),
        ("S3Region", .str "us-east-1"),
        ("ReportVersioning", .str "CREATE_NEW_REPORT"),
        ("RefreshClosedReports", .bool true)]

/-- A valid billing report definition whose bucket is local. -/
def localReport : JVal :=
  .obj [("TimeUnit", .str "HOURLY"),
        ("Format", .str "textORcsv"),
        ("Compression", .str "GZIP"),
        ("AdditionalSchemaElements", .arr [.str "RESOURCES"]),
        ("S3Bucket", .str "local-bucket"),
        ("S3Prefix", .str "reports"),
        ("S3Region", .str "us-east-1"),
        ("ReportVersioning", .str "CREATE_NEW_REPORT"),
        ("RefreshClosedReports", .bool true)]

/-- World with one minimum-only trail before one ideal trail. -/
def wTwoTrails : JVal :=
  .obj [("event", goodEvent),
        ("coeffects", .obj [("cloudtrail",
          .obj [("trailList", .arr [minOnlyTrail, idealTrail])])])]

/-- World with a single ideal trail for account 123456789012. -/
def wIdealTrail : JVal :=
  .obj [("event", goodEvent),
        ("coeffects", .obj [("cloudtrail",
          .obj [("trailList", .arr [idealTrail])])])]

/-- World with a single short-ARN trail. -/
def wShortArn : JVal :=
  .obj [("event", goodEvent),
        ("coeffects", .obj [("cloudtrail",
          .obj [("trailList", .arr [shortArnTrail])])])]

/-- World with an empty trail list. -/
def wNoTrails : JVal :=
  .obj [("event", goodEvent),
        ("coeffects", .obj [("cloudtrail", .obj [("trailList", .arr [])]),
                            ("s3", .obj [("Buckets",
                              .arr [.obj [("Name", .str "some-bucket")]])])])]

/-- World with one valid non-local report definition and one local bucket. -/
def wRemoteReport : JVal :=
  .obj [("event", goodEvent),
        ("coeffects", .obj [("s3", .obj [("Buckets",
                              .arr [.obj [("Name", .str "local-bucket")]])]),
                            ("cur", .obj [("ReportDefinitions",
                              .arr [remoteReport])])])]

/-- World with one valid local report definition. -/
def wLocalReport : JVal :=
  .obj [("event", goodEvent),
        ("coeffects", .obj [("s3", .obj [("Buckets",
                              .arr [.obj [("Name", .str "local-bucket")]])]),
                            ("cur", .obj [("ReportDefinitions",
                              .arr [remoteReport, localReport])])])]

/-- Entries of a fully populated world as it reaches classification. -/
def wFullKvs : List (String × JVal) :=
  [("event", goodEvent),
   ("coeffects", .obj [("cloudtrail", .obj [("trailList", .arr [idealTrail])]),
                       ("s3", .obj [("Buckets",
                         .arr [.obj [("Name", .str "trail-bucket")]])]),
                       ("cur", .obj [("ReportDefinitions", .arr [])])])]

/-- A fully populated world as it reaches classification. -/
def wFull : JVal := .obj wFullKvs

/-!
## Dictionary lemmas
-/

theorem lookup_setKey (d : List (String × JVal)) (k' k : String) (v : JVal) :
    lookup (setKey d k' v) k = if k' = k then some v else lookup d k := by
  induction d with
  | nil => simp [setKey, lookup]
  | cons kv rest ih =>
      obtain ⟨k0, v0⟩ := kv
      by_cases h0 : k0 = k'
      · subst h0
        simp only [setKey, if_pos rfl, lookup]
        by_cases hk : k0 = k
        · simp [hk]
        · simp [hk]
      · simp only [setKey, if_neg h0, lookup]
        by_cases hk : k0 = k
        · subst hk
          have : ¬ k' = k0 := fun h => h0 h.symm
          simp [this]
        · simp [hk, ih]

theorem lookup_merge (d2 d1 : List (String × JVal)) (k : String) :
    lookup (merge d1 d2) k =
      (match lookupLast d2 k with
       | some v => some v
       | none => lookup d1 k) := by
  induction d2 generalizing d1 with
  | nil => simp [merge, lookupLast]
  | cons kv rest ih =>
      obtain ⟨k', v⟩ := kv
      have hstep : merge d1 ((k', v) :: rest) = merge (setKey d1 k' v) rest := rfl
      rw [hstep, ih]
      simp only [lookupLast]
      cases hl : lookupLast rest k with
      | some r => rfl
      | none =>
          rw [lookup_setKey]
          by_cases hk : k' = k
          · simp [hk]
          · simp [hk]

theorem bind_ok {α β : Type} {a : Except PyErr α} {f : α → Except PyErr β} {v : β}
    (h : a.bind f = .ok v) : ∃ x, a = .ok x ∧ f x = .ok v := by
  cases a with
  | error e => simp [Except.bind] at h
  | ok x => exact ⟨x, rfl, h⟩

theorem lookup_setKey_self (kvs : List (String × JVal)) (k : String) (v : JVal) :
    lookup (setKey kvs k v) k = some v := by
  rw [lookup_setKey, if_pos rfl]

theorem lookup_setKey_ne (kvs : List (String × JVal)) (k' k : String) (v : JVal)
    (hk : ¬ (k' = k)) : lookup (setKey kvs k' v) k = lookup kvs k := by
  rw [lookup_setKey, if_neg hk]

/-!
## Structure of a classification rule's result

Every rule is `(rule_output world).bind (update_output world)`; on success
the result world is the input dict with only its `output` entry replaced.
-/

theorem update_output_ok {world v : JVal} {out : List (String × JVal)}
    (h : update_output world out = .ok v) :
    ∃ kvs pkvs, world = .obj kvs ∧
      output_base (lookup kvs "output") = .ok pkvs ∧
      v = .obj (setKey kvs "output" (.obj (merge pkvs out))) := by
  cases world with
  | obj kvs =>
      cases hob : output_base (lookup kvs "output") with
      | error e => simp [update_output, hob, Except.map] at h
      | ok pkvs =>
          simp only [update_output, hob, Except.map, Except.ok.injEq] at h
          exact ⟨kvs, pkvs, rfl, hob, h.symm⟩
  | null => simp [update_output] at h
  | bool b => simp [update_output] at h
  | str s => simp [update_output] at h
  | num n => simp [update_output] at h
  | arr xs => simp [update_output] at h

theorem rule_ok (out_fn : JVal → Except PyErr (List (String × JVal)))
    {world v : JVal}
    (h : (out_fn world).bind (update_output world) = .ok v) :
    ∃ kvs out pkvs, world = .obj kvs ∧ out_fn world = .ok out ∧
      output_base (lookup kvs "output") = .ok pkvs ∧
      v = .obj (setKey kvs "output" (.obj (merge pkvs out))) := by
  obtain ⟨out, h1, h2⟩ := bind_ok h
  obtain ⟨kvs, pkvs, hw, hb, hv⟩ := update_output_ok h2
  exact ⟨kvs, out, pkvs, hw, h1, hb, hv⟩

theorem output_key_result (kvs pkvs : List (String × JVal))
    (out : List (String × JVal)) (k : String) :
    output_key (.obj (setKey kvs "output" (.obj (merge pkvs out)))) k =
      (match lookupLast out k with
       | some v => some v
       | none => lookup pkvs k) := by
  simp [output_key, sectionOf, lookup_setKey_self, lookup_merge]

theorem sectionOf_result (kvs : List (String × JVal)) (M : JVal) (k : String)
    (hk : ¬ ("output" = k)) :
    sectionOf (.obj (setKey kvs "output" M)) k = lookup kvs k := by
  simp [sectionOf, lookup_setKey_ne _ _ _ _ hk]

theorem output_key_obj (kvs : List (String × JVal)) (k : String) :
    output_key (.obj kvs) k = prior_output_lookup (lookup kvs "output") k := by
  cases h : lookup kvs "output" with
  | none => simp [output_key, sectionOf, prior_output_lookup, h]
  | some v => cases v <;> simp [output_key, sectionOf, prior_output_lookup, h]

theorem output_base_lookup {o : Option JVal} {pkvs : List (String × JVal)}
    (h : output_base o = .ok pkvs) (k : String) :
    lookup pkvs k = prior_output_lookup o k := by
  match o with
  | none =>
      simp [output_base, pyFalsy] at h
      subst h
      simp [lookup, prior_output_lookup]
  | some .null =>
      simp [output_base, pyFalsy] at h
      subst h
      simp [lookup, prior_output_lookup]
  | some (.bool b) =>
      cases b with
      | false =>
          simp [output_base, pyFalsy] at h
          subst h
          simp [lookup, prior_output_lookup]
      | true => simp [output_base, pyFalsy] at h
  | some (.str s) =>
      by_cases hs : s = ""
      · subst hs
        simp [output_base, pyFalsy] at h
        subst h
        simp [lookup, prior_output_lookup]
      · simp [output_base, pyFalsy, hs] at h
  | some (.num n) =>
      by_cases hn : n = 0
      · subst hn
        simp [output_base, pyFalsy] at h
        subst h
        simp [lookup, prior_output_lookup]
      · simp [output_base, pyFalsy, hn] at h
  | some (.arr xs) =>
      cases xs with
      | nil =>
          simp [output_base, pyFalsy] at h
          subst h
          simp [lookup, prior_output_lookup]
      | cons a as => simp [output_base, pyFalsy] at h
  | some (.obj okvs) =>
      cases okvs with
      | nil =>
          simp [output_base, pyFalsy] at h
          subst h
          simp [lookup, prior_output_lookup]
      | cons a as =>
          simp [output_base, pyFalsy] at h
          subst h
          simp [prior_output_lookup]

/-- The fields written on success: the new `output` section takes a rule's
own pair for its own keys and keeps the prior value elsewhere. -/
theorem rule_output_key (out_fn : JVal → Except PyErr (List (String × JVal)))
    {world v : JVal}
    (h : (out_fn world).bind (update_output world) = .ok v) (k : String) :
    ∃ out, out_fn world = .ok out ∧
      output_key v k =
        (match lookupLast out k with
         | some x => some x
         | none => output_key world k) := by
  obtain ⟨kvs, out, pkvs, hw, hout, hb, hv⟩ := rule_ok out_fn h
  refine ⟨out, hout, ?_⟩
  subst hv
  rw [output_key_result]
  cases hl : lookupLast out k with
  | some x => rfl
  | none =>
      subst hw
      rw [output_base_lookup hb k]
      exact (output_key_obj kvs k).symm

/-- Everything outside the `output` section is passed through unchanged. -/
theorem rule_sectionOf (out_fn : JVal → Except PyErr (List (String × JVal)))
    {world v : JVal}
    (h : (out_fn world).bind (update_output world) = .ok v) (k : String)
    (hk : ¬ ("output" = k)) :
    sectionOf v k = sectionOf world k := by
  obtain ⟨kvs, out, pkvs, hw, hout, hb, hv⟩ := rule_ok out_fn h
  subst hv
  subst hw
  rw [sectionOf_result _ _ _ hk]
  rfl

/-!
## Dependence of the rule outputs on the world sections
-/

theorem getIn_obj_cons (k : String) (ks : List PathKey)
    (kvs : List (String × JVal)) (d : JVal) :
    getIn (.s k :: ks) (.obj kvs) d =
      (match lookup kvs k with
       | some v => getIn ks v d
       | none => d) := rfl

theorem audit_output_congr {kvs kvs' : List (String × JVal)}
    (hc : lookup kvs "coeffects" = lookup kvs' "coeffects") :
    audit_output (.obj kvs) = audit_output (.obj kvs') := by
  simp only [audit_output, local_buckets_of, getIn_obj_cons, hc]

theorem cloudtrail_output_congr {kvs kvs' : List (String × JVal)}
    (he : lookup kvs "event" = lookup kvs' "event")
    (hc : lookup kvs "coeffects" = lookup kvs' "coeffects") :
    cloudtrail_output (.obj kvs) = cloudtrail_output (.obj kvs') := by
  simp only [cloudtrail_output, event_account_id, getIn_obj_cons, hc, he]

theorem master_payer_output_congr {kvs kvs' : List (String × JVal)}
    (hc : lookup kvs "coeffects" = lookup kvs' "coeffects") :
    master_payer_output (.obj kvs) = master_payer_output (.obj kvs') := by
  simp only [master_payer_output, local_buckets_of, getIn_obj_cons, hc]

/-!
## Determinism machinery
-/

theorem step_related
    (out_fn : JVal → Except PyErr (List (String × JVal)))
    (hdep : ∀ kvs kvs', lookup kvs "event" = lookup kvs' "event" →
      lookup kvs "coeffects" = lookup kvs' "coeffects" →
      out_fn (.obj kvs) = out_fn (.obj kvs'))
    {kvs kvs' : List (String × JVal)}
    (he : lookup kvs "event" = lookup kvs' "event")
    (hc : lookup kvs "coeffects" = lookup kvs' "coeffects")
    (ho : lookup kvs "output" = lookup kvs' "output") :
    Related ((out_fn (.obj kvs)).bind (update_output (.obj kvs)))
            ((out_fn (.obj kvs')).bind (update_output (.obj kvs'))) := by
  rw [hdep kvs kvs' he hc]
  cases hout : out_fn (.obj kvs') with
  | error e => exact rfl
  | ok out =>
      show Related
        (Except.map (fun pkvs => JVal.obj (setKey kvs "output" (.obj (merge pkvs out))))
          (output_base (lookup kvs "output")))
        (Except.map (fun pkvs => JVal.obj (setKey kvs' "output" (.obj (merge pkvs out))))
          (output_base (lookup kvs' "output")))
      rw [ho]
      cases hob : output_base (lookup kvs' "output") with
      | error e => exact rfl
      | ok pkvs =>
          show Related
            (.ok (.obj (setKey kvs "output" (.obj (merge pkvs out)))))
            (.ok (.obj (setKey kvs' "output" (.obj (merge pkvs out)))))
          refine ⟨?_, ?_, ?_⟩
          · rw [lookup_setKey_ne _ _ _ _ (by decide),
                lookup_setKey_ne _ _ _ _ (by decide)]
            exact he
          · rw [lookup_setKey_ne _ _ _ _ (by decide),
                lookup_setKey_ne _ _ _ _ (by decide)]
            exact hc
          · rw [lookup_setKey_self, lookup_setKey_self]

theorem bind_related {r r' : Except PyErr JVal}
    (h : Related r r')
    (g : JVal → Except PyErr JVal)
    (hg : ∀ kvs kvs', lookup kvs "event" = lookup kvs' "event" →
      lookup kvs "coeffects" = lookup kvs' "coeffects" →
      lookup kvs "output" = lookup kvs' "output" →
      Related (g (.obj kvs)) (g (.obj kvs'))) :
    Related (r.bind g) (r'.bind g) := by
  cases r with
  | error e =>
      cases r' with
      | error e' =>
          have he : e = e' := h
          subst he
          exact rfl
      | ok v => exact h.elim
  | ok v =>
      cases r' with
      | error e' =>
          cases v <;> exact h.elim
      | ok v' =>
          cases v <;> cases v' <;>
            first
            | exact h.elim
            | (obtain ⟨he, hc, ho⟩ := h; exact hg _ _ he hc ho)

/-!
## Lemmas on last-binding lookup and rule outputs
-/

theorem lookupLast_eq_none {l : List (String × JVal)} {k : String}
    (h : k ∉ l.map Prod.fst) : lookupLast l k = none := by
  induction l with
  | nil => rfl
  | cons kv rest ih =>
      obtain ⟨k', v⟩ := kv
      simp only [List.map, List.mem_cons] at h
      push_neg at h
      simp only [lookupLast, ih h.2]
      exact if_neg (fun hh => h.1 hh.symm)

theorem lookupLast_isSome {l : List (String × JVal)} {k : String}
    (h : k ∈ l.map Prod.fst) : (lookupLast l k).isSome = true := by
  induction l with
  | nil => simp at h
  | cons kv rest ih =>
      obtain ⟨k', v⟩ := kv
      simp only [lookupLast]
      cases hl : lookupLast rest k with
      | some r => rfl
      | none =>
          simp only [List.map, List.mem_cons] at h
          cases h with
          | inl h1 => simp [h1.symm]
          | inr h2 => rw [hl] at ih; simpa using ih h2

theorem audit_output_ok {w : JVal} {out : List (String × JVal)}
    (h : audit_output w = .ok out) :
    ∃ names, local_buckets_of w = .ok names ∧
      out = [("IsAuditAccount", .bool (decide (getIn
                [.s "coeffects", .s "cloudtrail", .s "trailList", .i 0,
                 .s "S3BucketName"] w .null ∈ names))),
             ("AuditCloudTrailBucketName", getIn
                [.s "coeffects", .s "cloudtrail", .s "trailList", .i 0,
                 .s "S3BucketName"] w .null)] := by
  unfold audit_output at h
  obtain ⟨names, h1, h2⟩ := bind_ok h
  exact ⟨names, h1, (Except.ok.inj h2).symm⟩

theorem cloudtrail_output_ok {w : JVal} {out : List (String × JVal)}
    (h : cloudtrail_output w = .ok out) :
    ∃ trails topic acct,
      pyIter (getIn [.s "coeffects", .s "cloudtrail", .s "trailList"] w
        (.arr [])) = .ok trails ∧
      get_first_valid_trail (select_valid_trails trails) = .ok topic ∧
      extract_topic_account_id topic = .ok acct ∧
      out = [("IsCloudTrailAccount",
               .bool (decide (acct = event_account_id w))),
             ("CloudTrailSNSTopicArn", topic)] := by
  unfold cloudtrail_output at h
  obtain ⟨trails, h1, h2⟩ := bind_ok h
  obtain ⟨topic, h3, h4⟩ := bind_ok h2
  obtain ⟨acct, h5, h6⟩ := bind_ok h4
  exact ⟨trails, topic, acct, h1, h3, h5, (Except.ok.inj h6).symm⟩

theorem master_payer_output_ok {w : JVal} {out : List (String × JVal)}
    (h : master_payer_output w = .ok out) :
    ∃ reports names dflt vl name,
      pyIter (getIn [.s "coeffects", .s "cur", .s "ReportDefinitions"] w
        (.arr [])) = .ok reports ∧
      local_buckets_of w = .ok names ∧
      get_first_valid_report_definition_s3_bucket
        (keep_valid validReport reports) .null = .ok dflt ∧
      filter_local_reports names (keep_valid validReport reports) = .ok vl ∧
      get_first_valid_report_definition_s3_bucket vl dflt = .ok name ∧
      out = [("IsMasterPayerAccount", .bool (pyAny vl)),
             ("MasterPayerBillingBucketName", name)] := by
  unfold master_payer_output at h
  obtain ⟨reports, h1, h2⟩ := bind_ok h
  obtain ⟨names, h3, h4⟩ := bind_ok h2
  obtain ⟨dflt, h5, h6⟩ := bind_ok h4
  obtain ⟨vl, h7, h8⟩ := bind_ok h6
  obtain ⟨name, h9, h10⟩ := bind_ok h8
  exact ⟨reports, names, dflt, vl, name, h1, h3, h5, h7, h9,
    (Except.ok.inj h10).symm⟩

/-!
## Lemmas on validation and selection
-/

theorem isStrVal_eq {o : Option JVal} (h : isStrVal o = true) :
    ∃ s, o = some (.str s) := by
  match o with
  | some (.str s) => exact ⟨s, rfl⟩
  | none => simp [isStrVal] at h
  | some .null => simp [isStrVal] at h
  | some (.bool _) => simp [isStrVal] at h
  | some (.num _) => simp [isStrVal] at h
  | some (.arr _) => simp [isStrVal] at h
  | some (.obj _) => simp [isStrVal] at h

theorem mem_keep_valid {p : JVal → Bool} {xs : List JVal} {x : JVal}
    (h : x ∈ keep_valid p xs) : p x = true := by
  unfold keep_valid at h
  obtain ⟨a, _, heq⟩ := List.mem_filterMap.mp h
  unfold safe_check at heq
  by_cases hp : p a = true
  · simp only [hp, if_true, Option.some.injEq] at heq
    rw [← heq]
    exact hp
  · simp [hp] at heq

theorem select_of_ideal_ne {trails : List JVal}
    (h : keep_valid validTrailIdeal trails ≠ []) :
    select_valid_trails trails = keep_valid validTrailIdeal trails := by
  cases hi : keep_valid validTrailIdeal trails with
  | nil => exact absurd hi h
  | cons t ts => simp [select_valid_trails, hi]

theorem select_of_ideal_nil {trails : List JVal}
    (h : keep_valid validTrailIdeal trails = []) :
    select_valid_trails trails = keep_valid validTrailMinimum trails := by
  simp [select_valid_trails, h]

theorem mem_select_valid_trails {trails : List JVal} {t : JVal}
    (h : t ∈ select_valid_trails trails) : validTrailMinimum t = true := by
  by_cases hi : keep_valid validTrailIdeal trails = []
  · rw [select_of_ideal_nil hi] at h
    exact mem_keep_valid h
  · rw [select_of_ideal_ne hi] at h
    have hvt := mem_keep_valid h
    simp only [validTrailIdeal, Bool.and_eq_true] at hvt
    exact hvt.1

theorem validTrailMinimum_arn {x : JVal} (h : validTrailMinimum x = true) :
    ∃ kvs s, x = .obj kvs ∧ lookup kvs "SnsTopicARN" = some (.str s) := by
  cases x with
  | obj kvs =>
      simp only [validTrailMinimum, Bool.and_eq_true] at h
      obtain ⟨s, hs⟩ := isStrVal_eq h.1.1.2
      exact ⟨kvs, s, rfl, hs⟩
  | null => simp [validTrailMinimum] at h
  | bool b => simp [validTrailMinimum] at h
  | str s => simp [validTrailMinimum] at h
  | num n => simp [validTrailMinimum] at h
  | arr xs => simp [validTrailMinimum] at h

theorem validReport_bucket {x : JVal} (h : validReport x = true) :
    ∃ kvs s, x = .obj kvs ∧ lookup kvs "S3Bucket" = some (.str s) := by
  cases x with
  | obj kvs =>
      simp only [validReport, Bool.and_eq_true] at h
      obtain ⟨s, hs⟩ := isStrVal_eq h.1.1.1.1.2
      exact ⟨kvs, s, rfl, hs⟩
  | null => simp [validReport] at h
  | bool b => simp [validReport] at h
  | str s => simp [validReport] at h
  | num n => simp [validReport] at h
  | arr xs => simp [validReport] at h

theorem validReport_truthy {x : JVal} (h : validReport x = true) :
    pyFalsy x = false := by
  obtain ⟨kvs, s, hx, hl⟩ := validReport_bucket h
  subst hx
  cases kvs with
  | nil => simp [lookup] at hl
  | cons kv rest => simp [pyFalsy]

theorem pyAny_of_truthy {l : List JVal} (h : ∀ x ∈ l, pyFalsy x = false) :
    pyAny l = decide (l ≠ []) := by
  cases l with
  | nil => rfl
  | cons x xs =>
      have hx := h x (List.mem_cons_self x xs)
      simp [pyAny, hx]

theorem gfvr_nil (d : JVal) :
    get_first_valid_report_definition_s3_bucket [] d = .ok d := rfl

theorem gfvr_cons_truthy {x : JVal} (xs : List JVal) (d : JVal)
    (hx : pyFalsy x = false) :
    get_first_valid_report_definition_s3_bucket (x :: xs) d =
      getItem x "S3Bucket" := by
  have : pyAny (x :: xs) = true := by simp [pyAny, hx]
  simp [get_first_valid_report_definition_s3_bucket, this]

theorem filter_local_sub {names : List JVal} {l vl : List JVal}
    (h : filter_local_reports names l = .ok vl) : ∀ x ∈ vl, x ∈ l := by
  induction l generalizing vl with
  | nil =>
      simp only [filter_local_reports] at h
      cases h
      simp
  | cons y ys ih =>
      unfold filter_local_reports at h
      obtain ⟨b, h1, h2⟩ := bind_ok h
      obtain ⟨rest, h3, h4⟩ := bind_ok h2
      have hsub := ih h3
      by_cases hb : b ∈ names
      · rw [if_pos hb] at h4
        cases h4
        intro x hx
        cases hx with
        | head => exact List.mem_cons_self y ys
        | tail _ hx' => exact List.mem_cons_of_mem y (hsub x hx')
      · rw [if_neg hb] at h4
        cases h4
        intro x hx
        exact List.mem_cons_of_mem y (hsub x hx)

theorem filter_local_names {names : List JVal} {l vl : List JVal}
    (h : filter_local_reports names l = .ok vl) :
    ∀ x ∈ vl, ∃ b, getItem x "S3Bucket" = .ok b ∧ b ∈ names := by
  induction l generalizing vl with
  | nil =>
      simp only [filter_local_reports] at h
      cases h
      simp
  | cons y ys ih =>
      unfold filter_local_reports at h
      obtain ⟨b, h1, h2⟩ := bind_ok h
      obtain ⟨rest, h3, h4⟩ := bind_ok h2
      have hrec := ih h3
      by_cases hb : b ∈ names
      · rw [if_pos hb] at h4
        cases h4
        intro x hx
        cases hx with
        | head => exact ⟨b, h1, hb⟩
        | tail _ hx' => exact hrec x hx'
      · rw [if_neg hb] at h4
        cases h4
        intro x hx
        exact hrec x hx

/-!
## Claims
-/

/-- C7: classification is deterministic — two runs of
`discover_account_types` on worlds whose `event`, `coeffects` and `output`
sections agree (all other world entries may differ) raise the same error or
produce identical `output` records; classification reads nothing outside the
world snapshot. -/
theorem claim_C7 (kvs kvs' : List (String × JVal))
    (he : lookup kvs "event" = lookup kvs' "event")
    (hc : lookup kvs "coeffects" = lookup kvs' "coeffects")
    (ho : lookup kvs "output" = lookup kvs' "output") :
    (∀ e, discover_account_types (.obj kvs) = .error e ↔
          discover_account_types (.obj kvs') = .error e) ∧
    (∀ v v', discover_account_types (.obj kvs) = .ok v →
             discover_account_types (.obj kvs') = .ok v' →
             sectionOf v "output" = sectionOf v' "output") := by
  have hmp : ∀ (a b : List (String × JVal)),
      lookup a "event" = lookup b "event" →
      lookup a "coeffects" = lookup b "coeffects" →
      lookup a "output" = lookup b "output" →
      Related (discover_master_payer_account (.obj a))
              (discover_master_payer_account (.obj b)) :=
    fun _ _ hea hca hoa =>
      step_related master_payer_output
        (fun _ _ _ hcx => master_payer_output_congr hcx) hea hca hoa
  have hct : ∀ (a b : List (String × JVal)),
      lookup a "event" = lookup b "event" →
      lookup a "coeffects" = lookup b "coeffects" →
      lookup a "output" = lookup b "output" →
      Related ((discover_cloudtrail_account (.obj a)).bind
                (fun w3 => discover_master_payer_account w3))
              ((discover_cloudtrail_account (.obj b)).bind
                (fun w3 => discover_master_payer_account w3)) :=
    fun _ _ hea hca hoa =>
      bind_related
        (step_related cloudtrail_output
          (fun _ _ hex hcx => cloudtrail_output_congr hex hcx) hea hca hoa)
        _ hmp
  have hcn : ∀ (a b : List (String × JVal)),
      lookup a "event" = lookup b "event" →
      lookup a "coeffects" = lookup b "coeffects" →
      lookup a "output" = lookup b "output" →
      Related ((discover_connected_account (.obj a)).bind
                (fun w2 => (discover_cloudtrail_account w2).bind
                  (fun w3 => discover_master_payer_account w3)))
              ((discover_connected_account (.obj b)).bind
                (fun w2 => (discover_cloudtrail_account w2).bind
                  (fun w3 => discover_master_payer_account w3))) :=
    fun _ _ hea hca hoa =>
      bind_related
        (step_related (fun _ => .ok [("IsConnectedAccount", .bool true)])
          (fun _ _ _ _ => rfl) hea hca hoa)
        _ hct
  have hrel : Related (discover_account_types (.obj kvs))
      (discover_account_types (.obj kvs')) :=
    bind_related
      (step_related audit_output
        (fun _ _ _ hcx => audit_output_congr hcx) he hc ho)
      _ hcn
  constructor
  · intro e
    constructor
    · intro hE
      rw [hE] at hrel
      cases hE' : discover_account_types (.obj kvs') with
      | error e' =>
          rw [hE'] at hrel
          have hee : e = e' := hrel
          rw [hee]
      | ok v =>
          rw [hE'] at hrel
          exact hrel.elim
    · intro hE'
      rw [hE'] at hrel
      cases hE : discover_account_types (.obj kvs) with
      | error e0 =>
          rw [hE] at hrel
          have hee : e0 = e := hrel
          rw [hee]
      | ok v =>
          rw [hE] at hrel
          cases v <;> exact hrel.elim
  · intro v v' hv hv'
    rw [hv, hv'] at hrel
    cases v <;> cases v' <;>
      first
      | exact hrel.elim
      | (obtain ⟨he2, hc2, ho2⟩ := hrel; exact ho2)

/-- C2: the CloudTrail-account rule selects the ideal-valid subset whenever
it is non-empty and falls back to the minimum-valid subset only when it is
empty; the published `CloudTrailSNSTopicArn` is the `SnsTopicARN` of the
first element of the selected subset. -/
theorem claim_C2 (w w' : JVal) (trails : List JVal) (topic : JVal)
    (htr : getIn [.s "coeffects", .s "cloudtrail", .s "trailList"] w
      (.arr []) = .arr trails)
    (hok : discover_cloudtrail_account w = .ok w')
    (hsel : get_first_valid_trail (select_valid_trails trails) = .ok topic) :
    output_key w' "CloudTrailSNSTopicArn" = some topic ∧
    (keep_valid validTrailIdeal trails ≠ [] →
      get_first_valid_trail (keep_valid validTrailIdeal trails) = .ok topic) ∧
    (keep_valid validTrailIdeal trails = [] →
      get_first_valid_trail (keep_valid validTrailMinimum trails) = .ok topic) := by
  obtain ⟨out, hout, hkey⟩ :=
    rule_output_key cloudtrail_output hok "CloudTrailSNSTopicArn"
  obtain ⟨trails2, topic2, acct, h1, h2, h3, h4⟩ := cloudtrail_output_ok hout
  rw [htr] at h1
  have htr2 : trails2 = trails := (Except.ok.inj h1).symm
  subst htr2
  rw [hsel] at h2
  have htop : topic2 = topic := (Except.ok.inj h2).symm
  subst htop
  refine ⟨?_, ?_, ?_⟩
  · rw [hkey, h4]
    simp [lookupLast]
  · intro hne
    rw [select_of_ideal_ne hne] at hsel
    exact hsel
  · intro hnil
    rw [select_of_ideal_nil hnil] at hsel
    exact hsel

/-- C2 witness: a minimum-only trail listed before an ideal trail; the
chosen ARN is the ideal trail's, although the minimum-valid subset starts
with the other trail. -/
theorem claim_C2_witness :
    output_key (resultOf (discover_cloudtrail_account wTwoTrails))
      "CloudTrailSNSTopicArn"
      = some (.str "arn:aws:sns:us-east-1:123456789012:topic") ∧
    (keep_valid validTrailMinimum [minOnlyTrail, idealTrail]).head?
      = some minOnlyTrail ∧
    minOnlyTrail ≠ idealTrail :=
  ⟨(claim_C2 wTwoTrails (resultOf (discover_cloudtrail_account wTwoTrails))
      [minOnlyTrail, idealTrail]
      (.str "arn:aws:sns:us-east-1:123456789012:topic")
      (by decide) (by decide) (by decide)).1,
   by decide, by decide⟩

/-- C3: when a valid trail is selected and its topic ARN is a non-empty
string, the account id the rule compares is the 5th colon-delimited segment
(zero-based index 4) of that ARN; `IsCloudTrailAccount` is `true` exactly
when that segment equals the validated input account id, and
`CloudTrailSNSTopicArn` is the chosen ARN. -/
theorem claim_C3 (w w' : JVal) (trails : List JVal) (topic seg : String)
    (htr : getIn [.s "coeffects", .s "cloudtrail", .s "trailList"] w
      (.arr []) = .arr trails)
    (hok : discover_cloudtrail_account w = .ok w')
    (hsel : get_first_valid_trail (select_valid_trails trails) =
      .ok (.str topic))
    (hne : topic ≠ "")
    (hseg : (pySplitStr topic ':').get? 4 = some seg) :
    output_key w' "CloudTrailSNSTopicArn" = some (.str topic) ∧
    output_key w' "IsCloudTrailAccount" =
      some (.bool (decide (JVal.str seg = event_account_id w))) ∧
    (output_key w' "IsCloudTrailAccount" = some (.bool true) ↔
      JVal.str seg = event_account_id w) := by
  obtain ⟨out, hout, hkeyT⟩ :=
    rule_output_key cloudtrail_output hok "CloudTrailSNSTopicArn"
  obtain ⟨out2, hout2, hkeyA⟩ :=
    rule_output_key cloudtrail_output hok "IsCloudTrailAccount"
  rw [hout] at hout2
  have hout22 : out2 = out := (Except.ok.inj hout2).symm
  subst hout22
  obtain ⟨trails2, topic2, acct, h1, h2, h3, h4⟩ := cloudtrail_output_ok hout
  rw [htr] at h1
  have htr2 : trails2 = trails := (Except.ok.inj h1).symm
  subst htr2
  rw [hsel] at h2
  have htop : topic2 = .str topic := (Except.ok.inj h2).symm
  subst htop
  have hext : extract_topic_account_id (.str topic) = .ok (.str seg) := by
    have hseg' : (pySplitStr topic ':')[4]? = some seg := by
      rw [← List.get?_eq_getElem?]
      exact hseg
    simp [extract_topic_account_id, pyFalsy, hne, hseg']
  rw [hext] at h3
  have hacct : acct = .str seg := (Except.ok.inj h3).symm
  subst hacct
  have hT : output_key w' "CloudTrailSNSTopicArn" = some (.str topic) := by
    rw [hkeyT, h4]
    simp [lookupLast]
  have hA : output_key w' "IsCloudTrailAccount" =
      some (.bool (decide (JVal.str seg = event_account_id w))) := by
    rw [hkeyA, h4]
    simp [lookupLast]
  refine ⟨hT, hA, ?_⟩
  rw [hA]
  constructor
  · intro h
    have hb := JVal.bool.inj (Option.some.inj h)
    exact of_decide_eq_true hb
  · intro h
    simp [h]

/-- C3 witness: the spec's example ARN
`arn:aws:sns:us-east-1:123456789012:topic` yields segment `123456789012`,
which matches the input account id, so `IsCloudTrailAccount` is true. -/
theorem claim_C3_witness :
    output_key (resultOf (discover_cloudtrail_account wIdealTrail))
      "CloudTrailSNSTopicArn"
      = some (.str "arn:aws:sns:us-east-1:123456789012:topic") ∧
    output_key (resultOf (discover_cloudtrail_account wIdealTrail))
      "IsCloudTrailAccount" = some (.bool true) :=
  have h := claim_C3 wIdealTrail
    (resultOf (discover_cloudtrail_account wIdealTrail))
    [idealTrail] "arn:aws:sns:us-east-1:123456789012:topic" "123456789012"
    (by decide) (by decide) (by decide) (by decide) (by decide)
  ⟨h.1, h.2.2.mpr (by decide)⟩

theorem except_bind_ok {α β : Type} (x : α) (f : α → Except PyErr β) :
    (do let y ← Except.ok x
        f y : Except PyErr β) = f x := rfl

theorem except_bind_error {α β : Type} (e : PyErr) (f : α → Except PyErr β) :
    (do let y ← (Except.error e : Except PyErr α)
        f y : Except PyErr β) = Except.error e := rfl

/-- C10: account-id extraction is not total — if the chosen valid trail's
topic ARN is a non-empty string with fewer than five colon-delimited
segments, `discover_cloudtrail_account` raises `IndexError`; any error of
the pipeline makes the handler respond with the all-defaults output; only a
falsy topic (absent/`None` or the empty string) short-circuits safely to a
null account id. -/
theorem claim_C10 (w : JVal) (trails : List JVal) (topic : String)
    (htr : getIn [.s "coeffects", .s "cloudtrail", .s "trailList"] w
      (.arr []) = .arr trails)
    (hsel : get_first_valid_trail (select_valid_trails trails) =
      .ok (.str topic))
    (hne : topic ≠ "")
    (hshort : (pySplitStr topic ':').length < 5) :
    discover_cloudtrail_account w = .error .indexError ∧
    (∀ env event kwargs e r, handler_pipe env event kwargs = .error e →
       handler env event kwargs = .ok r → r.output = DEFAULT_OUTPUT) ∧
    extract_topic_account_id .null = .ok .null ∧
    extract_topic_account_id (.str "") = .ok .null := by
  refine ⟨?_, ?_, rfl, by decide⟩
  · have hget : (pySplitStr topic ':')[4]? = none := by
      rw [← List.get?_eq_getElem?]
      exact List.get?_eq_none.mpr (Nat.lt_succ_iff.mp hshort)
    have hext : extract_topic_account_id (.str topic) =
        .error .indexError := by
      simp [extract_topic_account_id, pyFalsy, hne, hget]
    have hco : cloudtrail_output w = .error .indexError := by
      unfold cloudtrail_output
      rw [htr]
      simp [pyIter, hsel, hext, except_bind_ok, except_bind_error]
    unfold discover_cloudtrail_account
    rw [hco]
    rfl
  · intro env event kwargs e r hpe hr
    unfold handler at hr
    rw [hpe] at hr
    cases event with
    | obj ekvs =>
        simp only [Except.bind, lookup, Option.getD] at hr
        have := Except.ok.inj hr
        rw [← this]
    | null => simp [except_bind_error] at hr
    | bool b => simp [except_bind_error] at hr
    | str s => simp [except_bind_error] at hr
    | num n => simp [except_bind_error] at hr
    | arr xs => simp [except_bind_error] at hr

/-- C10 witness: a minimum-valid trail with topic ARN `arn:short` makes the
CloudTrail rule raise `IndexError`. -/
theorem claim_C10_witness :
    discover_cloudtrail_account wShortArn = .error .indexError :=
  (claim_C10 wShortArn [shortArnTrail] "arn:short"
    (by decide) (by decide) (by decide) (by decide)).1

/-- C1 (amended): for every invocation whose raw event is a dict and whose
input is malformed (input validation raises), the pipeline fails before
classification and the final response carries the all-defaults output
record — but with a `SUCCESS` status, since `handler` initialises `status`
to `cfnresponse.SUCCESS` and never reassigns it. -/
theorem claim_C1 (env : Env) (event kwargs : JVal) (e : PyErr)
    (ekvs : List (String × JVal))
    (hbad : INPUT_SCHEMA (.obj [("event", event), ("kwargs", kwargs)]) =
      .error e)
    (hobj : event = .obj ekvs) :
    handler env event kwargs = .ok
      { status := Status.SUCCESS, output := DEFAULT_OUTPUT,
        physicalResourceId := (lookup ekvs "PhysicalResourceId").getD .null } := by
  have hpipe : handler_pipe env event kwargs = .error e := by
    unfold handler_pipe
    rw [hbad]
    simp [except_bind_error]
  subst hobj
  unfold handler
  rw [hpipe]
  simp [except_bind_ok, lookup]

/-- C1 counterexample: with `AccountId` missing, the handler still sends a
`SUCCESS` status together with the all-defaults output, so the claimed
failure status is wrong; moreover a non-dict raw event crashes the
`finally` block, so no response is delivered at all. -/
theorem claim_C1_counterexample :
    INPUT_SCHEMA (.obj [("event", badEvent), ("kwargs", .obj [])]) =
      .error .validationError ∧
    handler env0 badEvent (.obj []) =
      .ok { status := Status.SUCCESS, output := DEFAULT_OUTPUT,
            physicalResourceId := .null } ∧
    Status.SUCCESS ≠ Status.FAILED ∧
    handler env0 (.str "not-a-dict") (.obj []) = .error .typeError := by
  refine ⟨by decide, by decide, by decide, by decide⟩

/-- C1 witness: the amended statement at the malformed event with the
missing `AccountId`. -/
theorem claim_C1_witness :
    handler env0 badEvent (.obj []) =
      .ok { status := Status.SUCCESS, output := DEFAULT_OUTPUT,
            physicalResourceId := .null } :=
  claim_C1 env0 badEvent (.obj []) .validationError
    [("RequestType", .str "Create"),
     ("ResourceProperties", .obj []),
     ("ResponseURL", .str "https://response.example"),
     ("StackId", .str "stack-1")]
    (by decide) (by decide)

theorem getIn_trailList_empty {w : JVal}
    (h : getIn [.s "coeffects", .s "cloudtrail", .s "trailList"] w
      (.arr []) = .arr []) :
    getIn [.s "coeffects", .s "cloudtrail", .s "trailList", .i 0,
      .s "S3BucketName"] w .null = .null := by
  cases w with
  | obj kvs =>
      rw [getIn_obj_cons] at h ⊢
      cases h1 : lookup kvs "coeffects" with
      | none => simp [h1]
      | some v =>
          simp only [h1] at h ⊢
          cases v with
          | obj kvs2 =>
              rw [getIn_obj_cons] at h ⊢
              cases h2 : lookup kvs2 "cloudtrail" with
              | none => simp [h2]
              | some v2 =>
                  simp only [h2] at h ⊢
                  cases v2 with
                  | obj kvs3 =>
                      rw [getIn_obj_cons] at h ⊢
                      cases h3 : lookup kvs3 "trailList" with
                      | none => simp [h3]
                      | some v3 =>
                          simp only [h3] at h ⊢
                          have hv3 : v3 = .arr [] := h
                          subst hv3
                          rfl
                  | null => rfl
                  | bool b => rfl
                  | str s => rfl
                  | num n => rfl
                  | arr xs => rfl
          | null => rfl
          | bool b => rfl
          | str s => rfl
          | num n => rfl
          | arr xs => rfl
  | null => rfl
  | bool b => rfl
  | str s => rfl
  | num n => rfl
  | arr xs => rfl

/-- C5: with an empty (or absent) `trailList` and a validated input account
id, the audit rule reports `IsAuditAccount=false` with a null
`AuditCloudTrailBucketName`, and the CloudTrail rule reports
`IsCloudTrailAccount=false` with a null `CloudTrailSNSTopicArn`. -/
theorem claim_C5 (w : JVal) (aid : String) (names : List JVal)
    (htr : getIn [.s "coeffects", .s "cloudtrail", .s "trailList"] w
      (.arr []) = .arr [])
    (haid : event_account_id w = .str aid)
    (hnames : local_buckets_of w = .ok names)
    (hnn : JVal.null ∉ names) :
    (∀ w1, discover_audit_account w = .ok w1 →
       output_key w1 "IsAuditAccount" = some (.bool false) ∧
       output_key w1 "AuditCloudTrailBucketName" = some .null) ∧
    (∀ w2, discover_cloudtrail_account w = .ok w2 →
       output_key w2 "IsCloudTrailAccount" = some (.bool false) ∧
       output_key w2 "CloudTrailSNSTopicArn" = some .null) := by
  have hbucket := getIn_trailList_empty htr
  constructor
  · intro w1 hok
    obtain ⟨out, hout, hkey1⟩ := rule_output_key audit_output hok "IsAuditAccount"
    obtain ⟨out2, hout2, hkey2⟩ :=
      rule_output_key audit_output hok "AuditCloudTrailBucketName"
    rw [hout] at hout2
    have hout22 : out2 = out := (Except.ok.inj hout2).symm
    subst hout22
    obtain ⟨names2, hnames2, hform⟩ := audit_output_ok hout
    rw [hnames] at hnames2
    have hn2 : names2 = names := (Except.ok.inj hnames2).symm
    subst names2
    rw [hbucket] at hform
    have hdec : decide (JVal.null ∈ names) = false := decide_eq_false hnn
    constructor
    · rw [hkey1, hform]
      simp [lookupLast, hdec]
    · rw [hkey2, hform]
      simp [lookupLast]
  · intro w2 hok
    obtain ⟨out, hout, hkey1⟩ :=
      rule_output_key cloudtrail_output hok "IsCloudTrailAccount"
    obtain ⟨out2, hout2, hkey2⟩ :=
      rule_output_key cloudtrail_output hok "CloudTrailSNSTopicArn"
    rw [hout] at hout2
    have hout22 : out2 = out := (Except.ok.inj hout2).symm
    subst hout22
    obtain ⟨trails2, topic, acct, h1, h2, h3, h4⟩ := cloudtrail_output_ok hout
    rw [htr] at h1
    have htr2 : trails2 = [] := (Except.ok.inj h1).symm
    subst htr2
    have hsel : get_first_valid_trail (select_valid_trails []) = .ok .null := rfl
    rw [hsel] at h2
    have htop : topic = .null := (Except.ok.inj h2).symm
    subst htop
    have hext : extract_topic_account_id .null = .ok .null := rfl
    rw [hext] at h3
    have hacct : acct = .null := (Except.ok.inj h3).symm
    subst hacct
    rw [haid] at h4
    have hdec : decide (JVal.null = JVal.str aid) = false :=
      decide_eq_false (fun hh => JVal.noConfusion hh)
    constructor
    · rw [hkey1, h4]
      simp [lookupLast, hdec]
    · rw [hkey2, h4]
      simp [lookupLast]

/-- C5 witness: a world with an empty trail list, a validated account id
and one local bucket. -/
theorem claim_C5_witness :
    output_key (resultOf (discover_audit_account wNoTrails))
      "IsAuditAccount" = some (.bool false) ∧
    output_key (resultOf (discover_audit_account wNoTrails))
      "AuditCloudTrailBucketName" = some .null ∧
    output_key (resultOf (discover_cloudtrail_account wNoTrails))
      "IsCloudTrailAccount" = some (.bool false) ∧
    output_key (resultOf (discover_cloudtrail_account wNoTrails))
      "CloudTrailSNSTopicArn" = some .null :=
  have h := claim_C5 wNoTrails "123456789012" [.str "some-bucket"]
    (by decide) (by decide) (by decide) (by decide)
  have h1 := h.1 (resultOf (discover_audit_account wNoTrails)) (by decide)
  have h2 := h.2 (resultOf (discover_cloudtrail_account wNoTrails)) (by decide)
  ⟨h1.1, h1.2, h2.1, h2.2⟩

theorem getIn_single_key {kvs : List (String × JVal)} {k : String} {v : JVal}
    (h : lookup kvs k = some v) (d : JVal) :
    getIn [.s k] (.obj kvs) d = v := by
  simp [getIn_obj_cons, h, getIn]

/-- C4: the master-payer rule reports `IsMasterPayerAccount` exactly when
some valid report definition's bucket is local, while
`MasterPayerBillingBucketName` is the first local valid report's bucket
when one exists and otherwise falls back to the first valid report's
bucket — so a single valid but non-local report yields `false` together
with that report's (non-null) bucket name. -/
theorem claim_C4 (w w' : JVal) (reports names vl : List JVal)
    (hrep : getIn [.s "coeffects", .s "cur", .s "ReportDefinitions"] w
      (.arr []) = .arr reports)
    (hnames : local_buckets_of w = .ok names)
    (hvl : filter_local_reports names (keep_valid validReport reports) =
      .ok vl)
    (hok : discover_master_payer_account w = .ok w') :
    output_key w' "IsMasterPayerAccount" =
      some (.bool (decide (vl ≠ []))) ∧
    output_key w' "MasterPayerBillingBucketName" = some
      (match vl.head? with
       | some r => getIn [.s "S3Bucket"] r .null
       | none =>
         match (keep_valid validReport reports).head? with
         | some r => getIn [.s "S3Bucket"] r .null
         | none => .null) := by
  obtain ⟨out, hout, hkey1⟩ :=
    rule_output_key master_payer_output hok "IsMasterPayerAccount"
  obtain ⟨out2, hout2, hkey2⟩ :=
    rule_output_key master_payer_output hok "MasterPayerBillingBucketName"
  rw [hout] at hout2
  have hout22 : out2 = out := (Except.ok.inj hout2).symm
  subst hout22
  obtain ⟨reports2, names2, dflt, vl2, name, h1, h2, h3, h4, h5, hform⟩ :=
    master_payer_output_ok hout
  rw [hrep] at h1
  have hr2 : reports2 = reports := (Except.ok.inj h1).symm
  subst reports2
  rw [hnames] at h2
  have hn2 : names2 = names := (Except.ok.inj h2).symm
  subst names2
  rw [hvl] at h4
  have hv2 : vl2 = vl := (Except.ok.inj h4).symm
  subst vl2
  have hvalid : ∀ x ∈ vl, validReport x = true := fun x hx =>
    mem_keep_valid (filter_local_sub hvl x hx)
  have htruthy : ∀ x ∈ vl, pyFalsy x = false := fun x hx =>
    validReport_truthy (hvalid x hx)
  have hpy : pyAny vl = decide (vl ≠ []) := pyAny_of_truthy htruthy
  constructor
  · rw [hkey1, hform]
    simp [lookupLast, hpy]
  · rw [hkey2, hform]
    have hname : name =
        (match vl.head? with
         | some r => getIn [.s "S3Bucket"] r .null
         | none =>
           match (keep_valid validReport reports).head? with
           | some r => getIn [.s "S3Bucket"] r .null
           | none => .null) := by
      cases hvlc : vl with
      | nil =>
          subst hvlc
          rw [gfvr_nil] at h5
          have hdn : name = dflt := (Except.ok.inj h5).symm
          subst hdn
          cases hkv : keep_valid validReport reports with
          | nil =>
              rw [hkv, gfvr_nil] at h3
              have : JVal.null = name := Except.ok.inj h3
              simp [← this]
          | cons r rs =>
              have hrv : validReport r = true := by
                have hmem : r ∈ keep_valid validReport reports := by
                  rw [hkv]
                  exact List.mem_cons_self r rs
                exact mem_keep_valid hmem
              obtain ⟨rkvs, s, hrk, hrl⟩ := validReport_bucket hrv
              rw [hkv, gfvr_cons_truthy rs .null (validReport_truthy hrv)] at h3
              rw [hrk] at h3
              simp only [getItem, hrl] at h3
              have hns : name = .str s := (Except.ok.inj h3).symm
              simp only [List.head?]
              rw [hns, hrk, getIn_single_key hrl]
      | cons r rs =>
          subst hvlc
          have hrv : validReport r = true :=
            hvalid r (List.mem_cons_self r rs)
          obtain ⟨rkvs, s, hrk, hrl⟩ := validReport_bucket hrv
          rw [gfvr_cons_truthy rs dflt (validReport_truthy hrv)] at h5
          rw [hrk] at h5
          simp only [getItem, hrl] at h5
          have hns : name = .str s := (Except.ok.inj h5).symm
          simp only [List.head?]
          rw [hns, hrk, getIn_single_key hrl]
    rw [← hname]
    simp [lookupLast]

/-- C4 witness: one valid report with non-local bucket `remote-bucket`
and no local matches: `IsMasterPayerAccount` is false but the bucket name
is `remote-bucket`, not null. -/
theorem claim_C4_witness :
    output_key (resultOf (discover_master_payer_account wRemoteReport))
      "IsMasterPayerAccount" = some (.bool false) ∧
    output_key (resultOf (discover_master_payer_account wRemoteReport))
      "MasterPayerBillingBucketName" = some (.str "remote-bucket") :=
  have h := claim_C4 wRemoteReport
    (resultOf (discover_master_payer_account wRemoteReport))
    [remoteReport] [.str "local-bucket"] []
    (by decide) (by decide) (by decide) (by decide)
  ⟨h.1, h.2⟩

/-- C9: whenever the master-payer rule sets `IsMasterPayerAccount` to
`true`, the reported `MasterPayerBillingBucketName` is a string that is a
member of the local bucket-name set; a non-local fallback name can only
accompany `IsMasterPayerAccount=false`. -/
theorem claim_C9 (w w' : JVal) (names : List JVal)
    (hnames : local_buckets_of w = .ok names)
    (hok : discover_master_payer_account w = .ok w')
    (htrue : output_key w' "IsMasterPayerAccount" = some (.bool true)) :
    ∃ s, output_key w' "MasterPayerBillingBucketName" = some (.str s) ∧
      JVal.str s ∈ names := by
  obtain ⟨out, hout, hkey1⟩ :=
    rule_output_key master_payer_output hok "IsMasterPayerAccount"
  obtain ⟨out2, hout2, hkey2⟩ :=
    rule_output_key master_payer_output hok "MasterPayerBillingBucketName"
  rw [hout] at hout2
  have hout22 : out2 = out := (Except.ok.inj hout2).symm
  subst hout22
  obtain ⟨reports2, names2, dflt, vl, name, h1, h2, h3, h4, h5, hform⟩ :=
    master_payer_output_ok hout
  rw [hnames] at h2
  have hn2 : names2 = names := (Except.ok.inj h2).symm
  subst names2
  rw [hkey1, hform] at htrue
  simp only [lookupLast, lookup] at htrue
  have hpy : pyAny vl = true := by
    have := Option.some.inj htrue
    exact JVal.bool.inj this
  obtain ⟨r, rs, hvlc⟩ : ∃ r rs, vl = r :: rs := by
    cases vl with
    | nil => simp [pyAny] at hpy
    | cons r rs => exact ⟨r, rs, rfl⟩
  subst hvlc
  have hrv : validReport r = true :=
    mem_keep_valid (filter_local_sub h4 r (List.mem_cons_self r rs))
  obtain ⟨rkvs, s, hrk, hrl⟩ := validReport_bucket hrv
  rw [gfvr_cons_truthy rs dflt (validReport_truthy hrv)] at h5
  rw [hrk] at h5
  simp only [getItem, hrl] at h5
  have hns : name = .str s := (Except.ok.inj h5).symm
  obtain ⟨b, hb, hmem⟩ :=
    filter_local_names h4 r (List.mem_cons_self r rs)
  rw [hrk] at hb
  simp only [getItem, hrl] at hb
  have hbs : b = .str s := (Except.ok.inj hb).symm
  subst hbs
  refine ⟨s, ?_, hmem⟩
  rw [hkey2, hform, hns]
  simp [lookupLast]

/-- C9 witness: a valid report whose bucket `local-bucket` is local makes
the rule report `true` together with that member bucket name. -/
theorem claim_C9_witness :
    (∃ s, output_key (resultOf (discover_master_payer_account wLocalReport))
        "MasterPayerBillingBucketName" = some (.str s) ∧
      JVal.str s ∈ [JVal.str "local-bucket"]) ∧
    output_key (resultOf (discover_master_payer_account wLocalReport))
      "IsMasterPayerAccount" = some (.bool true) :=
  ⟨claim_C9 wLocalReport
    (resultOf (discover_master_payer_account wLocalReport))
    [.str "local-bucket"]
    (by decide) (by decide) (by decide), by decide⟩

theorem frame_of_step (out_fn : JVal → Except PyErr (List (String × JVal)))
    (K : List String)
    (hkeys : ∀ w out, out_fn w = .ok out → out.map Prod.fst = K) :
    RuleFrame (fun w => (out_fn w).bind (update_output w)) K := by
  intro kvs v h
  refine ⟨?_, ?_, ?_⟩
  · intro k hk
    exact rule_sectionOf out_fn h k hk
  · intro k hk
    obtain ⟨out, hout, hkey⟩ := rule_output_key out_fn h k
    have hnone : lookupLast out k = none :=
      lookupLast_eq_none (by rw [hkeys _ _ hout]; exact hk)
    rw [hkey, hnone]
  · intro k hk
    obtain ⟨out, hout, hkey⟩ := rule_output_key out_fn h k
    have hsome : (lookupLast out k).isSome = true :=
      lookupLast_isSome (by rw [hkeys _ _ hout]; exact hk)
    rw [hkey]
    cases hl : lookupLast out k with
    | some x => rfl
    | none => rw [hl] at hsome; simp at hsome

theorem ignores_of_step (out_fn : JVal → Except PyErr (List (String × JVal)))
    (K : List String)
    (hdep : ∀ kvs kvs', lookup kvs "event" = lookup kvs' "event" →
      lookup kvs "coeffects" = lookup kvs' "coeffects" →
      out_fn (.obj kvs) = out_fn (.obj kvs'))
    (hkeys : ∀ w out, out_fn w = .ok out → out.map Prod.fst = K) :
    RuleIgnoresOutput (fun w => (out_fn w).bind (update_output w)) K := by
  intro kvs kvs' v v' he hc hok hok' k hk
  obtain ⟨out, hout, hkey⟩ := rule_output_key out_fn hok k
  obtain ⟨out', hout', hkey'⟩ := rule_output_key out_fn hok' k
  rw [← hdep kvs kvs' he hc] at hout'
  rw [hout] at hout'
  have ho2 : out' = out := (Except.ok.inj hout').symm
  subst out'
  rw [hkey, hkey']
  have hsome : (lookupLast out k).isSome = true :=
    lookupLast_isSome (by rw [hkeys _ _ hout]; exact hk)
  cases hl : lookupLast out k with
  | some x => rfl
  | none => rw [hl] at hsome; simp at hsome

/-- C8: each classification rule returns the input world with everything
but the `output` section unchanged, adds bindings for exactly its own
output keys, leaves every other output field as it was, and computes its
values without reading the prior `output` section (so never from keys
another rule wrote). -/
theorem claim_C8 :
    (RuleFrame discover_audit_account audit_keys ∧
     RuleIgnoresOutput discover_audit_account audit_keys) ∧
    (RuleFrame discover_connected_account connected_keys ∧
     RuleIgnoresOutput discover_connected_account connected_keys) ∧
    (RuleFrame discover_cloudtrail_account cloudtrail_keys ∧
     RuleIgnoresOutput discover_cloudtrail_account cloudtrail_keys) ∧
    (RuleFrame discover_master_payer_account master_payer_keys ∧
     RuleIgnoresOutput discover_master_payer_account master_payer_keys) := by
  have haudit : ∀ (w : JVal) out, audit_output w = .ok out →
      out.map Prod.fst = audit_keys := by
    intro w out h
    obtain ⟨names, h1, h2⟩ := audit_output_ok h
    rw [h2]
    rfl
  have hconn : ∀ (w : JVal) out,
      (Except.ok [("IsConnectedAccount", JVal.bool true)] :
        Except PyErr (List (String × JVal))) = .ok out →
      out.map Prod.fst = connected_keys := by
    intro w out h
    rw [← Except.ok.inj h]
    rfl
  have hct : ∀ (w : JVal) out, cloudtrail_output w = .ok out →
      out.map Prod.fst = cloudtrail_keys := by
    intro w out h
    obtain ⟨t, tp, a, _, _, _, h4⟩ := cloudtrail_output_ok h
    rw [h4]
    rfl
  have hmp : ∀ (w : JVal) out, master_payer_output w = .ok out →
      out.map Prod.fst = master_payer_keys := by
    intro w out h
    obtain ⟨r, n, d, vl, nm, _, _, _, _, _, h6⟩ := master_payer_output_ok h
    rw [h6]
    rfl
  refine ⟨⟨?_, ?_⟩, ⟨?_, ?_⟩, ⟨?_, ?_⟩, ⟨?_, ?_⟩⟩
  · exact frame_of_step audit_output audit_keys haudit
  · exact ignores_of_step audit_output audit_keys
      (fun _ _ _ hcx => audit_output_congr hcx) haudit
  · exact frame_of_step (fun _ => .ok [("IsConnectedAccount", .bool true)])
      connected_keys hconn
  · exact ignores_of_step (fun _ => .ok [("IsConnectedAccount", .bool true)])
      connected_keys (fun _ _ _ _ => rfl) hconn
  · exact frame_of_step cloudtrail_output cloudtrail_keys hct
  · exact ignores_of_step cloudtrail_output cloudtrail_keys
      (fun _ _ hex hcx => cloudtrail_output_congr hex hcx) hct
  · exact frame_of_step master_payer_output master_payer_keys hmp
  · exact ignores_of_step master_payer_output master_payer_keys
      (fun _ _ _ hcx => master_payer_output_congr hcx) hmp

/-- C8 witness: the audit rule on a fully populated world keeps the
`coeffects` section, keeps the (absent) master-payer output field absent,
and defines its own `IsAuditAccount` field. -/
theorem claim_C8_witness :
    sectionOf (resultOf (discover_audit_account wFull)) "coeffects" =
      lookup wFullKvs "coeffects" ∧
    output_key (resultOf (discover_audit_account wFull))
      "IsMasterPayerAccount" = output_key wFull "IsMasterPayerAccount" ∧
    (output_key (resultOf (discover_audit_account wFull))
      "IsAuditAccount").isSome = true :=
  have hres : discover_audit_account (.obj wFullKvs) =
      .ok (resultOf (discover_audit_account wFull)) := by decide
  have hA := claim_C8.1.1 wFullKvs
    (resultOf (discover_audit_account wFull)) hres
  ⟨hA.1 "coeffects" (by decide),
   hA.2.1 "IsMasterPayerAccount" (by decide),
   hA.2.2 "IsAuditAccount" (by decide)⟩

/-- C7 witness: two runs on worlds that differ only in an extra `kwargs`
entry behave identically. -/
theorem claim_C7_witness :
    (discover_account_types (.obj [("output", JVal.str "x")]) =
        .error .typeError ↔
     discover_account_types (.obj [("output", JVal.str "x"),
        ("kwargs", JVal.num 1)]) = .error .typeError) :=
  (claim_C7 [("output", JVal.str "x")]
    [("output", JVal.str "x"), ("kwargs", JVal.num 1)]
    (by decide) (by decide) (by decide)).1 .typeError

theorem setKey_setKey (d : List (String × JVal)) (k : String) (v v' : JVal) :
    setKey (setKey d k v) k v' = setKey d k v' := by
  induction d with
  | nil => simp [setKey]
  | cons kv rest ih =>
      obtain ⟨k0, v0⟩ := kv
      by_cases h0 : k0 = k
      · simp [setKey, h0]
      · simp [setKey, h0, ih]

theorem coeffect_apply (name : String) (f : JVal → Except PyErr JVal)
    (kvs ikvs : List (String × JVal))
    (h : (lookup kvs "coeffects").getD (.obj []) = .obj ikvs) :
    coeffect name f (.obj kvs) = .ok (.obj (setKey kvs "coeffects"
      (.obj (setKey ikvs name
        (match f (.obj kvs) with
         | .ok d => d
         | .error _ => .obj []))))) := by
  unfold coeffect assoc_in_coeffects
  simp only [h]

/-- C6: the coeffect collector never propagates a fetcher error — for any
environment it succeeds, stores under each of the three category keys
exactly the key-filtered response of that category's own client call (so a
failure of one client cannot influence the other two categories), and
stores the empty dict for a category whose client call raised. -/
theorem claim_C6 (env : Env) (kvs : List (String × JVal))
    (hco : lookup kvs "coeffects" = none) :
    coeffects env (.obj kvs) = .ok (.obj (setKey kvs "coeffects"
      (.obj [("cloudtrail", fetch_data env.describe_trails "trailList"),
             ("s3", fetch_data env.list_buckets "Buckets"),
             ("cur", fetch_data env.describe_report_definitions
                "ReportDefinitions")]))) ∧
    (∀ e, env.describe_trails = .error e →
       fetch_data env.describe_trails "trailList" = .obj []) ∧
    (∀ e, env.list_buckets = .error e →
       fetch_data env.list_buckets "Buckets" = .obj []) ∧
    (∀ e, env.describe_report_definitions = .error e →
       fetch_data env.describe_report_definitions "ReportDefinitions" =
         .obj []) := by
  refine ⟨?_, ?_, ?_, ?_⟩
  · have h1 : coeffects_cloudtrail env (.obj kvs) =
        .ok (.obj (setKey kvs "coeffects"
          (.obj [("cloudtrail",
            fetch_data env.describe_trails "trailList")]))) := by
      have hA := coeffect_apply "cloudtrail"
        (fun _world => do
          let response ← env.describe_trails
          keyfilter (fun k => k == "trailList") response)
        kvs [] (by rw [hco]; rfl)
      exact hA
    have h2 : coeffects_s3 env (.obj (setKey kvs "coeffects"
        (.obj [("cloudtrail",
          fetch_data env.describe_trails "trailList")]))) =
        .ok (.obj (setKey kvs "coeffects"
          (.obj [("cloudtrail", fetch_data env.describe_trails "trailList"),
                 ("s3", fetch_data env.list_buckets "Buckets")]))) := by
      have hA := coeffect_apply "s3"
        (fun _world => do
          let response ← env.list_buckets
          keyfilter (fun k => k == "Buckets") response)
        (setKey kvs "coeffects"
          (.obj [("cloudtrail", fetch_data env.describe_trails "trailList")]))
        [("cloudtrail", fetch_data env.describe_trails "trailList")]
        (by rw [lookup_setKey_self]; rfl)
      rw [setKey_setKey] at hA
      exact hA
    have h3 : coeffects_cur env (.obj (setKey kvs "coeffects"
        (.obj [("cloudtrail", fetch_data env.describe_trails "trailList"),
               ("s3", fetch_data env.list_buckets "Buckets")]))) =
        .ok (.obj (setKey kvs "coeffects"
          (.obj [("cloudtrail", fetch_data env.describe_trails "trailList"),
                 ("s3", fetch_data env.list_buckets "Buckets"),
                 ("cur", fetch_data env.describe_report_definitions
                    "ReportDefinitions")]))) := by
      have hA := coeffect_apply "cur"
        (fun _world => do
          let response ← env.describe_report_definitions
          keyfilter (fun k => k == "ReportDefinitions") response)
        (setKey kvs "coeffects"
          (.obj [("cloudtrail", fetch_data env.describe_trails "trailList"),
                 ("s3", fetch_data env.list_buckets "Buckets")]))
        [("cloudtrail", fetch_data env.describe_trails "trailList"),
         ("s3", fetch_data env.list_buckets "Buckets")]
        (by rw [lookup_setKey_self]; rfl)
      rw [setKey_setKey] at hA
      exact hA
    unfold coeffects
    rw [h1, except_bind_ok, h2, except_bind_ok, h3]
  · intro e he
    simp only [fetch_data, he]
    rfl
  · intro e he
    simp only [fetch_data, he]
    rfl
  · intro e he
    simp only [fetch_data, he]
    rfl

/-- C6 witness: with the CloudTrail client raising, the collector still
succeeds, stores `{}` for `cloudtrail` and the real data for the other two
categories. -/
theorem claim_C6_witness :
    coeffects envFail (.obj [("event", goodEvent)]) =
      .ok (.obj (setKey [("event", goodEvent)] "coeffects"
        (.obj [("cloudtrail", fetch_data envFail.describe_trails "trailList"),
               ("s3", fetch_data envFail.list_buckets "Buckets"),
               ("cur", fetch_data envFail.describe_report_definitions
                  "ReportDefinitions")]))) ∧
    fetch_data envFail.describe_trails "trailList" = .obj [] :=
  ⟨(claim_C6 envFail [("event", goodEvent)] (by decide)).1,
   (claim_C6 envFail [("event", goodEvent)] (by decide)).2.1 .typeError rfl⟩
